import Mathlib

/-!
Shallow embedding of `src/opensteer/plugins/Pedestrian.cpp` (the OpenSteer
pedestrian plugin).

Modelling conventions:
* C++ `float` scalars are modelled as exact rationals (`ℚ`).
* `Vec3::distance (a, b) < r` comparisons are modelled by the equivalent
  `Vec3.distSq a b < r ^ 2` (equivalent whenever `0 ≤ r`, and every radius
  the plugin compares against is positive), since the Euclidean norm itself
  is irrational.
* Steering-library calls (`steerToAvoidObstacles`, `steerToAvoidNeighbors`,
  `steerForWander`, `steerToFollowPath`, `steerToStayOnPath`) and the
  kinematic integrator (`applySteeringForce`) are declared outside this
  translation unit; the plugin only forwards or branches on their results,
  so the embedding takes those results as parameters.
* `frandom01 ()` is modelled as a stream `rand : ℕ → ℚ`; the k-th call of a
  function reads `rand k`.
* The proximity-database operations (`allocateToken`, `updateForNewPosition`,
  token deletion) are declared in `OpenSteer/Proximity.h`, outside this
  translation unit; they are modelled from the specification where marked.
-/

/-- `Vec3` from the OpenSteer vector library, with exact rational
components. -/
structure Vec3 where
  x : ℚ
  y : ℚ
  z : ℚ
deriving DecidableEq

/-- `Vec3::zero`. -/
def Vec3.zero : Vec3 := ⟨0, 0, 0⟩

/-- Componentwise vector addition (`operator+`). -/
def Vec3.add (a b : Vec3) : Vec3 := ⟨a.x + b.x, a.y + b.y, a.z + b.z⟩

/-- Scalar multiplication (`operator*`). -/
def Vec3.scale (a : Vec3) (s : ℚ) : Vec3 := ⟨a.x * s, a.y * s, a.z * s⟩

/-- `Vec3::setYtoZero`: forces the vertical component to zero. -/
def Vec3.setYtoZero (a : Vec3) : Vec3 := ⟨a.x, 0, a.z⟩

/-- Squared Euclidean distance; `Vec3::distance (a, b) < r` is embedded as
`Vec3.distSq a b < r ^ 2`. -/
def Vec3.distSq (a b : Vec3) : ℚ :=
  (a.x - b.x) ^ 2 + (a.y - b.y) ^ 2 + (a.z - b.z) ^ 2

/-- `interpolate (alpha, x0, x1) = x0 + ((x1 - x0) * alpha)` from the
OpenSteer utilities. -/
def Vec3.interpolate (alpha : ℚ) (x0 x1 : Vec3) : Vec3 :=
  x0.add ((x1.add (x0.scale (-1))).scale alpha)

/-!
## The steering arbiter: `Pedestrian::determineCombinedSteering`
-/

/-- Inputs read by `Pedestrian::determineCombinedSteering`: the vehicle
state, the two global switches, and the results of the external
steering-library calls it makes (each at the fixed arguments used by the
plugin). -/
structure SteerEnv where
  forward : Vec3
  position : Vec3
  maxSpeed : ℚ
  wanderSwitch : Bool
  useDirectedPathFollowing : Bool
  avoidObstaclesResult : Vec3
  avoidNeighborsResult : Vec3
  wanderResult : Vec3
  followPathResult : Vec3
  stayOnPathResult : Vec3
deriving DecidableEq

/-- Observable trace of one `determineCombinedSteering` call: which random
gates were evaluated, the gated avoidance vectors, the neighbor query the
call issued (center and radius of `findNeighbors`), and the combined
steering force just before the final `setYtoZero` projection. -/
structure SteerTrace where
  obstacleGate : Bool
  obstacleAvoidance : Vec3
  neighborQueried : Bool
  queryCenter : Vec3
  queryRadius : ℚ
  neighborGate : Bool
  collisionAvoidance : Vec3
  combinedForce : Vec3
deriving DecidableEq

/-- `const float leakThrough = 0.1f`. -/
def leakThrough : ℚ := 1 / 10

/-- `const float caLeadTime = 3` (collision-avoidance lead time). -/
def caLeadTime : ℚ := 3

/-- The `obstacleAvoidance` local variable after the first random gate:
`steerToAvoidObstacles (6, gObstacles)` when `leakThrough < frandom01()`,
otherwise the default-constructed zero vector. -/
def gatedObstacleAvoidance (env : SteerEnv) (rand : ℕ → ℚ) : Vec3 :=
  if leakThrough < rand 0 then env.avoidObstaclesResult else Vec3.zero

/-- The `collisionAvoidance` local variable after the second random gate:
`steerToAvoidNeighbors (caLeadTime, neighbors) * 10` when
`leakThrough < frandom01()` at the second draw, otherwise zero. -/
def gatedCollisionAvoidance (env : SteerEnv) (rand : ℕ → ℚ) : Vec3 :=
  if leakThrough < rand 1 then env.avoidNeighborsResult.scale 10 else Vec3.zero

/-- `Pedestrian::determineCombinedSteering`, returning the steering force
handed back to `applySteeringForce` together with the call trace. -/
def determineCombinedSteering (env : SteerEnv) (rand : ℕ → ℚ) :
    Vec3 × SteerTrace :=
  let steeringForce := env.forward
  let obstacleAvoidance := gatedObstacleAvoidance env rand
  if obstacleAvoidance ≠ Vec3.zero then
    let combined := steeringForce.add obstacleAvoidance
    (combined.setYtoZero,
     { obstacleGate := decide (leakThrough < rand 0)
       obstacleAvoidance := obstacleAvoidance
       neighborQueried := false
       queryCenter := Vec3.zero
       queryRadius := 0
       neighborGate := false
       collisionAvoidance := Vec3.zero
       combinedForce := combined })
  else
    let maxRadius := caLeadTime * env.maxSpeed * 2
    let collisionAvoidance := gatedCollisionAvoidance env rand
    if collisionAvoidance ≠ Vec3.zero then
      let combined := steeringForce.add collisionAvoidance
      (combined.setYtoZero,
       { obstacleGate := decide (leakThrough < rand 0)
         obstacleAvoidance := obstacleAvoidance
         neighborQueried := true
         queryCenter := env.position
         queryRadius := maxRadius
         neighborGate := decide (leakThrough < rand 1)
         collisionAvoidance := collisionAvoidance
         combinedForce := combined })
    else
      let wanderComponent :=
        if env.wanderSwitch then env.wanderResult else Vec3.zero
      let pathFollow :=
        if env.useDirectedPathFollowing then env.followPathResult
        else env.stayOnPathResult
      let combined :=
        (steeringForce.add wanderComponent).add (pathFollow.scale (1 / 2))
      (combined.setYtoZero,
       { obstacleGate := decide (leakThrough < rand 0)
         obstacleAvoidance := obstacleAvoidance
         neighborQueried := true
         queryCenter := env.position
         queryRadius := maxRadius
         neighborGate := decide (leakThrough < rand 1)
         collisionAvoidance := collisionAvoidance
         combinedForce := combined })

/-- A sample steering environment used by the closed witnesses below. -/
def sampleSteerEnv : SteerEnv :=
  { forward := ⟨1, 1, 0⟩
    position := ⟨4, 0, 4⟩
    maxSpeed := 2
    wanderSwitch := true
    useDirectedPathFollowing := true
    avoidObstaclesResult := ⟨0, 0, 5⟩
    avoidNeighborsResult := ⟨7, 0, 0⟩
    wanderResult := ⟨1, 0, 0⟩
    followPathResult := ⟨2, 0, 0⟩
    stayOnPathResult := ⟨3, 0, 0⟩ }

/-- C1: if the obstacle-avoidance computation yields a non-zero vector, the
combined steering force is exactly the base forward force plus that vector
with the vertical component zeroed, and the result is unchanged under any
replacement of the neighbor-avoidance, wander, and path-following results:
all lower-priority behaviors are skipped this step. -/
theorem obstacle_avoidance_preempts (env : SteerEnv) (rand : ℕ → ℚ)
    (ca w fp sp : Vec3)
    (hgate : leakThrough < rand 0)
    (hoa : env.avoidObstaclesResult ≠ Vec3.zero) :
    (determineCombinedSteering env rand).1
      = (env.forward.add env.avoidObstaclesResult).setYtoZero ∧
    determineCombinedSteering
        { env with avoidNeighborsResult := ca, wanderResult := w,
                   followPathResult := fp, stayOnPathResult := sp } rand
      = determineCombinedSteering env rand := by
  have hg : gatedObstacleAvoidance env rand = env.avoidObstaclesResult := by
    simp [gatedObstacleAvoidance, hgate]
  have hg2 : gatedObstacleAvoidance
      { env with avoidNeighborsResult := ca, wanderResult := w,
                 followPathResult := fp, stayOnPathResult := sp } rand
      = env.avoidObstaclesResult := by
    simp [gatedObstacleAvoidance, hgate]
  constructor
  · simp [determineCombinedSteering, hg, hoa]
  · simp [determineCombinedSteering, hg, hg2, hoa]

/-- Closed witness for `obstacle_avoidance_preempts` at a concrete input. -/
theorem obstacle_avoidance_preempts_witness :
    (leakThrough < (fun _ : ℕ => (1 : ℚ)) 0 ∧
     sampleSteerEnv.avoidObstaclesResult ≠ Vec3.zero) ∧
    ((determineCombinedSteering sampleSteerEnv (fun _ => 1)).1
       = (sampleSteerEnv.forward.add
            sampleSteerEnv.avoidObstaclesResult).setYtoZero ∧
     determineCombinedSteering
        { sampleSteerEnv with avoidNeighborsResult := ⟨9, 9, 9⟩,
                              wanderResult := ⟨8, 8, 8⟩,
                              followPathResult := ⟨7, 7, 7⟩,
                              stayOnPathResult := ⟨6, 6, 6⟩ } (fun _ => 1)
       = determineCombinedSteering sampleSteerEnv (fun _ => 1)) :=
  ⟨⟨by norm_num [leakThrough],
    by simp [sampleSteerEnv, Vec3.zero]⟩,
   obstacle_avoidance_preempts sampleSteerEnv (fun _ => 1) ⟨9, 9, 9⟩ ⟨8, 8, 8⟩
     ⟨7, 7, 7⟩ ⟨6, 6, 6⟩ (by norm_num [leakThrough])
     (by simp [sampleSteerEnv, Vec3.zero])⟩

/-- C4: the obstacle-avoidance gate is attempted exactly when the first
random draw exceeds `leakThrough = 1/10`, and the neighbor-avoidance gate is
attempted exactly when that decision point is reached (obstacle avoidance
was zero) and the second, distinct random draw exceeds `leakThrough`. -/
theorem avoidance_gates_use_distinct_draws (env : SteerEnv) (rand : ℕ → ℚ) :
    (determineCombinedSteering env rand).2.obstacleGate
      = decide (leakThrough < rand 0) ∧
    (determineCombinedSteering env rand).2.neighborGate
      = ((determineCombinedSteering env rand).2.neighborQueried
          && decide (leakThrough < rand 1)) ∧
    leakThrough = 1 / 10 := by
  have h3 : leakThrough = 1 / 10 := rfl
  rcases eq_or_ne (gatedObstacleAvoidance env rand) Vec3.zero with h1 | h1
  · rcases eq_or_ne (gatedCollisionAvoidance env rand) Vec3.zero with h2 | h2 <;>
      simp [determineCombinedSteering, h1, h2, h3]
  · simp [determineCombinedSteering, h1, h3]

/-- C8: the steering force returned by the arbiter always has a vertical
component equal to zero, for every state and every outcome of the random
gates. -/
theorem combined_steering_y_eq_zero (env : SteerEnv) (rand : ℕ → ℚ) :
    (determineCombinedSteering env rand).1.y = 0 := by
  rcases eq_or_ne (gatedObstacleAvoidance env rand) Vec3.zero with h1 | h1
  · rcases eq_or_ne (gatedCollisionAvoidance env rand) Vec3.zero with h2 | h2 <;>
      simp [determineCombinedSteering, h1, h2, Vec3.setYtoZero]
  · simp [determineCombinedSteering, h1, Vec3.setYtoZero]

/-- C5: whenever the gated obstacle avoidance is zero, the arbiter queries
the proximity database centered at the vehicle position with radius exactly
`caLeadTime * maxSpeed * 2 = 6 * maxSpeed`, and the neighbor-avoidance
vector it may add is the raw `steerToAvoidNeighbors` result scaled by 10. -/
theorem neighbor_query_radius_and_scale (env : SteerEnv) (rand : ℕ → ℚ)
    (h : gatedObstacleAvoidance env rand = Vec3.zero) :
    (determineCombinedSteering env rand).2.neighborQueried = true ∧
    (determineCombinedSteering env rand).2.queryCenter = env.position ∧
    (determineCombinedSteering env rand).2.queryRadius
      = caLeadTime * env.maxSpeed * 2 ∧
    caLeadTime * env.maxSpeed * 2 = 6 * env.maxSpeed ∧
    (determineCombinedSteering env rand).2.collisionAvoidance
      = gatedCollisionAvoidance env rand ∧
    gatedCollisionAvoidance env rand
      = (if leakThrough < rand 1 then env.avoidNeighborsResult.scale 10
         else Vec3.zero) ∧
    (gatedCollisionAvoidance env rand ≠ Vec3.zero →
      (determineCombinedSteering env rand).2.combinedForce
        = env.forward.add (gatedCollisionAvoidance env rand)) := by
  rcases eq_or_ne (gatedCollisionAvoidance env rand) Vec3.zero with h2 | h2 <;>
    refine ⟨?_, ?_, ?_, by rw [caLeadTime]; ring, ?_, rfl, ?_⟩ <;>
      simp [determineCombinedSteering, h, h2]

/-- Closed witness for `neighbor_query_radius_and_scale` at a concrete
input (first draw below `leakThrough`, so obstacle avoidance is skipped). -/
theorem neighbor_query_radius_and_scale_witness :
    gatedObstacleAvoidance sampleSteerEnv
      (fun n => if n = 0 then 0 else 1) = Vec3.zero ∧
    (determineCombinedSteering sampleSteerEnv
      (fun n => if n = 0 then 0 else 1)).2.queryRadius
      = caLeadTime * sampleSteerEnv.maxSpeed * 2 :=
  ⟨by norm_num [gatedObstacleAvoidance, leakThrough],
   (neighbor_query_radius_and_scale sampleSteerEnv
      (fun n => if n = 0 then 0 else 1)
      (by norm_num [gatedObstacleAvoidance, leakThrough])).2.2.1⟩

/-- C7: when both gated avoidance vectors are zero, the combined force (the
value of `steeringForce` just before the final ground-plane projection) is
the base forward force, plus the wander result exactly when the wander
switch is on, plus the selected path-following result scaled by `1/2`; the
directed variant is used exactly when the global directed-following flag is
set, and the returned force is that combination with y zeroed. -/
theorem wander_and_path_follow_combination (env : SteerEnv) (rand : ℕ → ℚ)
    (h1 : gatedObstacleAvoidance env rand = Vec3.zero)
    (h2 : gatedCollisionAvoidance env rand = Vec3.zero) :
    (determineCombinedSteering env rand).2.combinedForce
      = (env.forward.add
          (if env.wanderSwitch then env.wanderResult else Vec3.zero)).add
          ((if env.useDirectedPathFollowing then env.followPathResult
            else env.stayOnPathResult).scale (1 / 2)) ∧
    (determineCombinedSteering env rand).1
      = (determineCombinedSteering env rand).2.combinedForce.setYtoZero := by
  constructor <;> simp [determineCombinedSteering, h1, h2]

/-- Closed witness for `wander_and_path_follow_combination` (both random
draws below `leakThrough`, so both avoidance behaviors are skipped). -/
theorem wander_and_path_follow_combination_witness :
    (gatedObstacleAvoidance sampleSteerEnv (fun _ => 0) = Vec3.zero ∧
     gatedCollisionAvoidance sampleSteerEnv (fun _ => 0) = Vec3.zero) ∧
    (determineCombinedSteering sampleSteerEnv (fun _ => 0)).2.combinedForce
      = (sampleSteerEnv.forward.add
          (if sampleSteerEnv.wanderSwitch then sampleSteerEnv.wanderResult
           else Vec3.zero)).add
          ((if sampleSteerEnv.useDirectedPathFollowing then
              sampleSteerEnv.followPathResult
            else sampleSteerEnv.stayOnPathResult).scale (1 / 2)) :=
  ⟨⟨by norm_num [gatedObstacleAvoidance, leakThrough],
    by norm_num [gatedCollisionAvoidance, leakThrough]⟩,
   (wander_and_path_follow_combination sampleSteerEnv (fun _ => 0)
      (by norm_num [gatedObstacleAvoidance, leakThrough])
      (by norm_num [gatedCollisionAvoidance, leakThrough])).1⟩

/-!
## Path, obstacles and globals: `getTestPath`
-/

/-- `SphericalObstacle`: a center point and a radius. -/
structure SphericalObstacle where
  center : Vec3
  radius : ℚ
deriving DecidableEq

/-- The fields of `PolylinePathway` used by the plugin. -/
structure PolylinePathway where
  pointCount : ℕ
  points : List Vec3
  radius : ℚ
  cyclic : Bool
deriving DecidableEq

/-- `const float size = 30`. -/
def sizeConst : ℚ := 30

/-- `const float top = 2 * size`. -/
def topConst : ℚ := 2 * sizeConst

/-- `const float gap = 1.2f * size`. -/
def gapConst : ℚ := (12 / 10) * sizeConst

/-- `const float out = 2 * size`. -/
def outConst : ℚ := 2 * sizeConst

/-- `const float h = 0.5`. -/
def hConst : ℚ := 1 / 2

/-- The seven `pathPoints` built by `getTestPath`. -/
def testPathPoints : List Vec3 :=
  [⟨hConst + gapConst - outConst, 0, hConst + topConst - outConst⟩,
   ⟨hConst + gapConst, 0, hConst + topConst⟩,
   ⟨hConst + gapConst + topConst / 2, 0, hConst + topConst / 2⟩,
   ⟨hConst + gapConst, 0, hConst⟩,
   ⟨hConst, 0, hConst⟩,
   ⟨hConst, 0, hConst + topConst⟩,
   ⟨hConst + gapConst, 0, hConst + topConst / 2⟩]

/-- The file-scope globals written by `getTestPath`: the cached path
(`gTestPath`, `NULL` at start-up), the two obstacle objects, the shared
obstacle group, and the two path endpoints.  The default-constructed
`SphericalObstacle` has radius 1 and center zero; its initial value is
irrelevant because `getTestPath` overwrites it before first use. -/
structure PathGlobals where
  gTestPath : Option PolylinePathway
  gObstacle1 : SphericalObstacle
  gObstacle2 : SphericalObstacle
  gObstacles : List SphericalObstacle
  gEndpoint0 : Vec3
  gEndpoint1 : Vec3
deriving DecidableEq

/-- The program start-up state of the globals. -/
def initialPathGlobals : PathGlobals :=
  { gTestPath := none
    gObstacle1 := ⟨Vec3.zero, 1⟩
    gObstacle2 := ⟨Vec3.zero, 1⟩
    gObstacles := []
    gEndpoint0 := Vec3.zero
    gEndpoint1 := Vec3.zero }

/-- `getTestPath`: on the first call (cached path still `NULL`) builds the
7-point path of tube radius 2, positions the two obstacles (radii 3 and 5)
and pushes them into the obstacle group, and records the two endpoints;
afterwards it returns the cached path unchanged. -/
def getTestPath (g : PathGlobals) : PolylinePathway × PathGlobals :=
  match g.gTestPath with
  | some p => (p, g)
  | none =>
      let pts := testPathPoints
      let o1 : SphericalObstacle :=
        ⟨Vec3.interpolate (2 / 10) (pts.getD 0 Vec3.zero) (pts.getD 1 Vec3.zero), 3⟩
      let o2 : SphericalObstacle :=
        ⟨Vec3.interpolate (5 / 10) (pts.getD 2 Vec3.zero) (pts.getD 3 Vec3.zero), 5⟩
      let path : PolylinePathway := ⟨7, pts, 2, false⟩
      (path,
       { gTestPath := some path
         gObstacle1 := o1
         gObstacle2 := o2
         gObstacles := g.gObstacles ++ [o1, o2]
         gEndpoint0 := pts.getD 0 Vec3.zero
         gEndpoint1 := pts.getD 6 Vec3.zero })

/-- C10: the first `getTestPath` call builds the 7-point path with tube
radius 2 and registers exactly the two obstacles of radii 3 and 5, and any
call on a state whose cached path is already set returns that path and
leaves every global (path, endpoints, obstacle group) unchanged, so the
group never accumulates duplicates. -/
theorem getTestPath_idempotent (g : PathGlobals) (p : PolylinePathway)
    (hcached : g.gTestPath = some p) :
    ((getTestPath initialPathGlobals).1.pointCount = 7 ∧
     (getTestPath initialPathGlobals).1.points.length = 7 ∧
     (getTestPath initialPathGlobals).1.radius = 2 ∧
     (getTestPath initialPathGlobals).2.gObstacles.map SphericalObstacle.radius
       = [3, 5] ∧
     (getTestPath initialPathGlobals).2.gTestPath
       = some (getTestPath initialPathGlobals).1) ∧
    getTestPath g = (p, g) := by
  refine ⟨⟨rfl, rfl, rfl, rfl, rfl⟩, ?_⟩
  simp [getTestPath, hcached]

/-- Closed witness for `getTestPath_idempotent`: the state after the first
call is cached, and a second call returns the same path and state. -/
theorem getTestPath_idempotent_witness :
    (getTestPath initialPathGlobals).2.gTestPath
      = some (getTestPath initialPathGlobals).1 ∧
    getTestPath (getTestPath initialPathGlobals).2
      = ((getTestPath initialPathGlobals).1,
         (getTestPath initialPathGlobals).2) :=
  ⟨rfl,
   (getTestPath_idempotent (getTestPath initialPathGlobals).2
      (getTestPath initialPathGlobals).1 rfl).2⟩

/-!
## Direction reversal at path endpoints (`Pedestrian::update`, lines 146-161)
-/

/-- The endpoint check at the end of `Pedestrian::update`: under directed
path following, reaching within the path tube radius of `gEndpoint0` forces
the direction flag to `+1`, then reaching within the radius of `gEndpoint1`
forces it to `-1`; otherwise the flag is kept. -/
def directionAfterEndpointCheck (useDirected : Bool) (e0 e1 : Vec3) (r : ℚ)
    (pos : Vec3) (dir : ℤ) : ℤ :=
  if useDirected then
    let d1 := if Vec3.distSq pos e0 < r ^ 2 then 1 else dir
    if Vec3.distSq pos e1 < r ^ 2 then -1 else d1
  else dir

/-- C6: in directed mode an agent within tube radius of endpoint 0 (and not
of endpoint 1) gets direction `+1`, an agent within tube radius of endpoint
1 gets direction `-1`, and while consecutive steps stay within tube radius
of the same endpoint the flag keeps that value — it is set once per
approach and does not oscillate during the dwell. -/
theorem direction_reversal_at_endpoints (e0 e1 p q : Vec3) (r : ℚ) (d : ℤ) :
    (Vec3.distSq p e0 < r ^ 2 → ¬ Vec3.distSq p e1 < r ^ 2 →
       directionAfterEndpointCheck true e0 e1 r p d = 1) ∧
    (Vec3.distSq p e1 < r ^ 2 →
       directionAfterEndpointCheck true e0 e1 r p d = -1) ∧
    (Vec3.distSq p e0 < r ^ 2 → ¬ Vec3.distSq p e1 < r ^ 2 →
     Vec3.distSq q e0 < r ^ 2 → ¬ Vec3.distSq q e1 < r ^ 2 →
       directionAfterEndpointCheck true e0 e1 r q
           (directionAfterEndpointCheck true e0 e1 r p d)
         = directionAfterEndpointCheck true e0 e1 r p d) ∧
    (Vec3.distSq p e1 < r ^ 2 → Vec3.distSq q e1 < r ^ 2 →
       directionAfterEndpointCheck true e0 e1 r q
           (directionAfterEndpointCheck true e0 e1 r p d)
         = directionAfterEndpointCheck true e0 e1 r p d) := by
  refine ⟨?_, ?_, ?_, ?_⟩ <;>
    · intros
      simp [directionAfterEndpointCheck, *]

/-- Closed witness for `direction_reversal_at_endpoints` with concrete
endpoints `(0,0,0)` and `(10,0,0)`, tube radius 2, and an agent sitting at
`(1,0,0)`, within the tube radius of endpoint 0 only. -/
theorem direction_reversal_at_endpoints_witness :
    Vec3.distSq ⟨1, 0, 0⟩ ⟨0, 0, 0⟩ < (2 : ℚ) ^ 2 ∧
    ¬ Vec3.distSq ⟨1, 0, 0⟩ ⟨10, 0, 0⟩ < (2 : ℚ) ^ 2 ∧
    directionAfterEndpointCheck true ⟨0, 0, 0⟩ ⟨10, 0, 0⟩ 2 ⟨1, 0, 0⟩ (-1)
      = 1 :=
  ⟨by norm_num [Vec3.distSq], by norm_num [Vec3.distSq],
   (direction_reversal_at_endpoints ⟨0, 0, 0⟩ ⟨10, 0, 0⟩ ⟨1, 0, 0⟩ ⟨1, 0, 0⟩
      2 (-1)).1 (by norm_num [Vec3.distSq]) (by norm_num [Vec3.distSq])⟩

/-!
## Token-position invariant for a single agent (C3)

`Pedestrian::update` and `Pedestrian::reset` both end with
`proximityToken->updateForNewPosition (position())`; `Pedestrian::newPD`
deletes the token and allocates a fresh one.  The token operations are
declared in `OpenSteer/Proximity.h`, outside `src/`, and are modelled from
the specification.
-/

/-- Per-agent view of the `Pedestrian` state relevant to the token-position
invariant: the vehicle position, the path-following direction flag, and
`tokenPos`, the position recorded in the proximity database under the token
owned by this agent (`none` when the entry has no defined position yet). -/
structure AgentState where
  pos : Vec3
  pathDirection : ℤ
  tokenPos : Option Vec3
deriving DecidableEq

/-- `Pedestrian::reset`: the agent is placed at a random point (the computed
placement is taken as the parameter `p`), the path direction is drawn from
`frandom01 () > 0.5 ? -1 : +1` (draw `rd`), and the call ends with
`proximityToken->updateForNewPosition (position())`, which per the spec
mutates the token record to the current position. -/
def resetAgent (p : Vec3) (rd : ℚ) (_s : AgentState) : AgentState :=
  ⟨p, if 1 / 2 < rd then -1 else 1, some p⟩

/-- `Pedestrian::update`: `applySteeringForce` (external integrator) moves
the vehicle to `q`, the endpoint check possibly rewrites the direction
flag, and the call ends with
`proximityToken->updateForNewPosition (position())`. -/
def updateAgent (useDirected : Bool) (e0 e1 : Vec3) (r : ℚ) (q : Vec3)
    (s : AgentState) : AgentState :=
  ⟨q, directionAfterEndpointCheck useDirected e0 e1 r q s.pathDirection,
   some q⟩

/-- Modelled from the spec: the token operations of `Pedestrian::newPD` live
in `OpenSteer/Proximity.h` (not under `src/`).  `newPD` deletes the boid's
old token and calls `allocateToken`, which "registers a new entry with
undefined initial position" — so after a database swap the agent's
registered position is undefined (`none`) until the next
`updateForNewPosition`. -/
def newPDAgent (s : AgentState) : AgentState :=
  ⟨s.pos, s.pathDirection, none⟩

/-- The `Pedestrian` constructor: `newPD` (fresh token, undefined position)
followed by `reset`. -/
def createAgent (p : Vec3) (rd : ℚ) : AgentState :=
  resetAgent p rd ⟨Vec3.zero, 0, none⟩

/-- States of one agent reachable between simulation steps: construction,
any number of resets, per-frame updates, and proximity-database swaps. -/
inductive ReachableAgent : AgentState → Prop
  | create (p : Vec3) (rd : ℚ) : ReachableAgent (createAgent p rd)
  | reset (p : Vec3) (rd : ℚ) (s : AgentState) :
      ReachableAgent s → ReachableAgent (resetAgent p rd s)
  | update (b : Bool) (e0 e1 : Vec3) (r : ℚ) (q : Vec3) (s : AgentState) :
      ReachableAgent s → ReachableAgent (updateAgent b e0 e1 r q s)
  | swap (s : AgentState) : ReachableAgent s → ReachableAgent (newPDAgent s)

/-- The state reached by constructing an agent at `(1,2,3)` and then
swapping the proximity database (`newPD`), with no update in between. -/
def stalePedState : AgentState := newPDAgent (createAgent ⟨1, 2, 3⟩ 0)

/-- C3 counterexample: a reachable between-steps state (right after a
database swap) in which the token's registered position is not the agent's
current position — the fresh token has no defined position at all. -/
theorem token_position_stale_after_swap :
    ReachableAgent stalePedState ∧
    stalePedState.tokenPos ≠ some stalePedState.pos :=
  ⟨ReachableAgent.swap _ (ReachableAgent.create ⟨1, 2, 3⟩ 0),
   by simp [stalePedState, newPDAgent, createAgent, resetAgent]⟩

/-- C3 (amended): in every reachable between-steps state the token position
either equals the agent's current position or is undefined (immediately
after a database swap, until the next update or reset); both `update` and
`reset` end by writing the agent's current position into the token, so they
re-establish the exact invariant. -/
theorem token_position_invariant (s : AgentState) (h : ReachableAgent s)
    (p : Vec3) (rd : ℚ) (b : Bool) (e0 e1 : Vec3) (r : ℚ) (q : Vec3) :
    (s.tokenPos = some s.pos ∨ s.tokenPos = none) ∧
    (resetAgent p rd s).tokenPos = some (resetAgent p rd s).pos ∧
    (updateAgent b e0 e1 r q s).tokenPos
      = some (updateAgent b e0 e1 r q s).pos := by
  refine ⟨?_, rfl, rfl⟩
  induction h with
  | create p rd => exact Or.inl rfl
  | reset p rd s hs ih => exact Or.inl rfl
  | update b e0 e1 r q s hs ih => exact Or.inl rfl
  | swap s hs ih => exact Or.inr rfl

/-- Closed witness for `token_position_invariant` at a freshly constructed
agent. -/
theorem token_position_invariant_witness :
    ReachableAgent (createAgent ⟨0, 0, 0⟩ 0) ∧
    (((createAgent ⟨0, 0, 0⟩ 0).tokenPos
        = some (createAgent ⟨0, 0, 0⟩ 0).pos ∨
      (createAgent ⟨0, 0, 0⟩ 0).tokenPos = none) ∧
     (resetAgent ⟨1, 1, 1⟩ 0 (createAgent ⟨0, 0, 0⟩ 0)).tokenPos
       = some (resetAgent ⟨1, 1, 1⟩ 0 (createAgent ⟨0, 0, 0⟩ 0)).pos ∧
     (updateAgent true ⟨0, 0, 0⟩ ⟨1, 0, 0⟩ 2 ⟨2, 2, 2⟩
        (createAgent ⟨0, 0, 0⟩ 0)).tokenPos
       = some (updateAgent true ⟨0, 0, 0⟩ ⟨1, 0, 0⟩ 2 ⟨2, 2, 2⟩
          (createAgent ⟨0, 0, 0⟩ 0)).pos) :=
  ⟨ReachableAgent.create ⟨0, 0, 0⟩ 0,
   token_position_invariant (createAgent ⟨0, 0, 0⟩ 0)
     (ReachableAgent.create ⟨0, 0, 0⟩ 0) ⟨1, 1, 1⟩ 0 true ⟨0, 0, 0⟩
     ⟨1, 0, 0⟩ 2 ⟨2, 2, 2⟩⟩

/-!
## Crowd manager and proximity-database lifecycle (C2, C9)
-/

/-- One record held by a proximity database: the token id, the registered
agent reference (its serial number), and the registered position, `none`
while undefined. -/
structure PDEntry where
  token : ℕ
  agent : ℕ
  pos : Option Vec3
deriving DecidableEq

/-- A proximity database (either backend, brute-force or bin-lattice, seen
through the abstract contract): its registered entries plus a fresh-token
counter. -/
structure ProxDB where
  nextTok : ℕ
  entries : List PDEntry
deriving DecidableEq

/-- Modelled from the spec: `allocate_token(agent_ref) -> Token` (declared
in `OpenSteer/Proximity.h`, not under `src/`) "registers a new entry with
undefined initial position; fails never". -/
def ProxDB.allocateToken (pd : ProxDB) (agent : ℕ) : ℕ × ProxDB :=
  (pd.nextTok, ⟨pd.nextTok + 1, pd.entries ++ [⟨pd.nextTok, agent, none⟩]⟩)

/-- Modelled from the spec: `token.release()` (or token destruction,
declared in `OpenSteer/Proximity.h`, not under `src/`) "removes the
entry". -/
def ProxDB.release (pd : ProxDB) (tok : ℕ) : ProxDB :=
  ⟨pd.nextTok, pd.entries.filter (fun e => e.token != tok)⟩

/-- The crowd-level view of one `Pedestrian`: its serial number, the token
it currently owns, and its vehicle position. -/
structure Ped where
  serial : ℕ
  token : ℕ
  pos : Vec3
deriving DecidableEq

/-- `PedestrianPlugIn` state: the crowd vector, the `population` counter,
the active proximity database and the backend cycle counter. -/
structure PlugState where
  crowd : List Ped
  population : ℤ
  pd : ProxDB
  cyclePD : ℤ
deriving DecidableEq

/-- `Pedestrian::newPD` during a swap: delete this boid's token in the old
proximity database, then allocate a token for it in the new one. -/
def pedNewPD (p : Ped) (oldPD newDB : ProxDB) : Ped × ProxDB × ProxDB :=
  let released := oldPD.release p.token
  let alloc := newDB.allocateToken p.serial
  ({ p with token := alloc.1 }, released, alloc.2)

/-- The loop of `PedestrianPlugIn::nextPD`: `for i in crowd: i->newPD(*pd)`,
carried out in crowd order against the old and the new database. -/
def migrateCrowd : List Ped → ProxDB → ProxDB → List Ped × ProxDB × ProxDB
  | [], oldPD, newDB => ([], oldPD, newDB)
  | p :: rest, oldPD, newDB =>
      let step := pedNewPD p oldPD newDB
      let tail := migrateCrowd rest step.2.1 step.2.2
      (step.1 :: tail.1, tail.2.1, tail.2.2)

/-- A newly allocated proximity database of either backend: no entries. -/
def freshProxDB : ProxDB := ⟨0, []⟩

/-- `PedestrianPlugIn::nextPD`: allocate a fresh database (the backend
alternates with `cyclePD = (cyclePD + 1) % 2`), switch each boid to it via
`newPD`, then delete the old database. -/
def nextPD (s : PlugState) : PlugState :=
  let m := migrateCrowd s.crowd s.pd freshProxDB
  { crowd := m.1
    population := s.population
    pd := m.2.2
    cyclePD := (s.cyclePD + 1) % 2 }

theorem migrateCrowd_crowd_serial (c : List Ped) (o n : ProxDB) :
    (migrateCrowd c o n).1.map Ped.serial = c.map Ped.serial := by
  induction c generalizing o n with
  | nil => rfl
  | cons p rest ih => simp [migrateCrowd, pedNewPD, ih]

theorem migrateCrowd_crowd_pos (c : List Ped) (o n : ProxDB) :
    (migrateCrowd c o n).1.map Ped.pos = c.map Ped.pos := by
  induction c generalizing o n with
  | nil => rfl
  | cons p rest ih => simp [migrateCrowd, pedNewPD, ih]

theorem migrateCrowd_newDB (c : List Ped) (o n : ProxDB) :
    (migrateCrowd c o n).2.2.entries
      = n.entries
        ++ (migrateCrowd c o n).1.map (fun p => ⟨p.token, p.serial, none⟩) := by
  induction c generalizing o n with
  | nil => simp [migrateCrowd]
  | cons p rest ih =>
      simp [migrateCrowd, pedNewPD, ProxDB.allocateToken, ih]

theorem migrateCrowd_oldDB_mem (c : List Ped) (o n : ProxDB) (e : PDEntry) :
    e ∈ (migrateCrowd c o n).2.1.entries
      ↔ e ∈ o.entries ∧ ∀ p ∈ c, e.token ≠ p.token := by
  induction c generalizing o n with
  | nil => simp [migrateCrowd]
  | cons p rest ih =>
      simp [migrateCrowd, pedNewPD, ih, ProxDB.release, List.mem_filter]
      tauto

/-- A one-agent state used to exercise `nextPD`: agent 0 owns token 0 and
its position `(1,2,3)` is registered in the active database. -/
def swapDemoState : PlugState :=
  { crowd := [⟨0, 0, ⟨1, 2, 3⟩⟩]
    population := 1
    pd := ⟨1, [⟨0, 0, some ⟨1, 2, 3⟩⟩]⟩
    cyclePD := 1 }

/-- C2 counterexample: after a backend swap the position registered for the
agent in the new index is undefined (`none`), not the position `(1,2,3)`
registered in the old index immediately before the swap. -/
theorem nextPD_drops_registered_positions :
    swapDemoState.pd.entries.map PDEntry.pos = [some ⟨1, 2, 3⟩] ∧
    (nextPD swapDemoState).pd.entries.map PDEntry.pos = [none] ∧
    (nextPD swapDemoState).pd.entries.map PDEntry.pos
      ≠ swapDemoState.pd.entries.map PDEntry.pos := by
  have h1 : (nextPD swapDemoState).pd.entries.map PDEntry.pos = [none] := rfl
  have h2 : swapDemoState.pd.entries.map PDEntry.pos = [some ⟨1, 2, 3⟩] := rfl
  refine ⟨h2, h1, ?_⟩
  rw [h1, h2]
  simp

/-- C2 (amended): after `nextPD` every existing agent is re-registered: the
crowd (serials and vehicle positions) is unchanged, the new database holds
exactly one entry per crowd member (in crowd order, under that member's new
token), every old token has been released from the old database before it
is deleted — but each new entry's registered position is undefined
(`none`), not the position registered before the swap; it is next written
by the agent's `update` or `reset`. -/
theorem nextPD_reregisters_all_agents (s : PlugState) :
    (nextPD s).crowd.map Ped.serial = s.crowd.map Ped.serial ∧
    (nextPD s).crowd.map Ped.pos = s.crowd.map Ped.pos ∧
    (nextPD s).pd.entries
      = (nextPD s).crowd.map (fun p => ⟨p.token, p.serial, none⟩) ∧
    (∀ e ∈ (nextPD s).pd.entries, e.pos = none) ∧
    (∀ e ∈ (migrateCrowd s.crowd s.pd freshProxDB).2.1.entries,
        e ∈ s.pd.entries ∧ ∀ p ∈ s.crowd, e.token ≠ p.token) := by
  have hnew := migrateCrowd_newDB s.crowd s.pd freshProxDB
  refine ⟨migrateCrowd_crowd_serial s.crowd s.pd freshProxDB,
          migrateCrowd_crowd_pos s.crowd s.pd freshProxDB, ?_, ?_, ?_⟩
  · simpa [nextPD, freshProxDB] using hnew
  · intro e he
    simp only [nextPD] at he
    rw [hnew] at he
    simp [freshProxDB] at he
    obtain ⟨p, hp, rfl⟩ := he
    rfl
  · intro e he
    exact (migrateCrowd_oldDB_mem s.crowd s.pd freshProxDB e).1 he

/-- Closed witness for `nextPD_reregisters_all_agents` on the one-agent
demo state. -/
theorem nextPD_reregisters_all_agents_witness :
    (nextPD swapDemoState).crowd.map Ped.serial
      = swapDemoState.crowd.map Ped.serial ∧
    (nextPD swapDemoState).pd.entries
      = (nextPD swapDemoState).crowd.map (fun p => ⟨p.token, p.serial, none⟩) ∧
    (∀ e ∈ (nextPD swapDemoState).pd.entries, e.pos = none) :=
  ⟨(nextPD_reregisters_all_agents swapDemoState).1,
   (nextPD_reregisters_all_agents swapDemoState).2.2.1,
   (nextPD_reregisters_all_agents swapDemoState).2.2.2.1⟩

/-- `PedestrianPlugIn::removePedestrianFromCrowd`: if the population is
positive, pop the last crowd member, decrement the population, and delete
the pedestrian — whose destructor deletes its proximity token, removing its
entry from the database.  `crowd.back()` on an empty vector would be
undefined behaviour in C++; under the maintained invariant
`population = crowd.length` that arm is unreachable, and the embedding
leaves the state unchanged there. -/
def removePedestrianFromCrowd (s : PlugState) : PlugState :=
  if 0 < s.population then
    match s.crowd.getLast? with
    | some ped =>
        { crowd := s.crowd.dropLast
          population := s.population - 1
          pd := s.pd.release ped.token
          cyclePD := s.cyclePD }
    | none => s
  else s

/-- C9: on a consistent state (`population = crowd.length`), removing from
an empty crowd is a no-op (state unchanged, no error), and otherwise the
call removes exactly the most recently added pedestrian: the crowd loses
its last element, the population drops by one and stays consistent, and
the removed pedestrian's token is gone from the proximity database while
all other entries are kept. -/
theorem removePedestrian_lifo (s : PlugState)
    (hpop : s.population = s.crowd.length) :
    (s.crowd = [] → removePedestrianFromCrowd s = s) ∧
    (∀ c ped, s.crowd = c ++ [ped] →
       (removePedestrianFromCrowd s).crowd = c ∧
       (removePedestrianFromCrowd s).population = s.population - 1 ∧
       (removePedestrianFromCrowd s).population
         = ((removePedestrianFromCrowd s).crowd.length : ℤ) ∧
       (∀ e ∈ (removePedestrianFromCrowd s).pd.entries,
           e ∈ s.pd.entries ∧ e.token ≠ ped.token) ∧
       (removePedestrianFromCrowd s).cyclePD = s.cyclePD) := by
  constructor
  · intro hempty
    simp [removePedestrianFromCrowd, hpop, hempty]
  · intro c ped hsplit
    have hlast : s.crowd.getLast? = some ped := by
      rw [hsplit]; exact List.getLast?_concat c
    have hlen : (0 : ℤ) < s.population := by
      rw [hpop, hsplit]; simp
    have hdrop : s.crowd.dropLast = c := by
      rw [hsplit]; exact List.dropLast_concat
    have hres : removePedestrianFromCrowd s
        = { crowd := s.crowd.dropLast
            population := s.population - 1
            pd := s.pd.release ped.token
            cyclePD := s.cyclePD } := by
      simp [removePedestrianFromCrowd, hlen, hlast]
    refine ⟨by rw [hres]; exact hdrop, by rw [hres], ?_, ?_, by rw [hres]⟩
    · rw [hres, hpop, hsplit]
      simp [hdrop, hsplit]
    · intro e he
      rw [hres] at he
      simp [ProxDB.release, List.mem_filter] at he
      exact ⟨he.1, he.2⟩

/-- A one-agent state for the removal witness: agent 0 owns token 5,
registered in the database alongside another token 9. -/
def removeDemoState : PlugState :=
  { crowd := [⟨0, 5, ⟨0, 0, 0⟩⟩]
    population := 1
    pd := ⟨10, [⟨5, 0, some ⟨0, 0, 0⟩⟩, ⟨9, 3, some ⟨4, 4, 4⟩⟩]⟩
    cyclePD := 0 }

/-- Closed witness for `removePedestrian_lifo` on the one-agent demo
state. -/
theorem removePedestrian_lifo_witness :
    removeDemoState.population = (removeDemoState.crowd.length : ℤ) ∧
    removeDemoState.crowd = [] ++ [⟨0, 5, ⟨0, 0, 0⟩⟩] ∧
    (removePedestrianFromCrowd removeDemoState).crowd = [] ∧
    (removePedestrianFromCrowd removeDemoState).population
      = removeDemoState.population - 1 := by
  have hpop : removeDemoState.population
      = (removeDemoState.crowd.length : ℤ) := by
    simp [removeDemoState]
  have h := (removePedestrian_lifo removeDemoState hpop).2 []
    ⟨0, 5, ⟨0, 0, 0⟩⟩ rfl
  exact ⟨hpop, rfl, h.1, h.2.1⟩
